import Mathlib

/-!
Verification of the Containerized Generation Orchestrator of the
klaudbiusz repository (cli/generation/dagger_run.py and
cli/generation/container_runner.py), as a shallow embedding in Lean 4.

Python-level effects are made explicit:
  - the filesystem of an output root is an association list of named
    entries (files and directories);
  - external outcomes (exec errors, export failures, the probe output of
    the file(1) command, metrics-file contents) are parameters;
  - a raised Python exception is the error case of an Except value.
-/

namespace Orchestrator

/-- Substring test on character lists: Python `sub in s`. -/
def containsSub (hay need : List Char) : Bool :=
  match hay with
  | [] => need.isEmpty
  | _ :: t => need.isPrefixOf hay || containsSub t need

/-- Python `sub in s` for strings. -/
def strContains (s sub : String) : Bool :=
  containsSub s.toList sub.toList

/-- Python str.lower, character by character. -/
def strLower (s : String) : String :=
  String.mk (s.toList.map Char.toLower)

/-- A parsed JSON value, as produced by Python json.loads: integers and
floats are distinct, objects keep their fields in textual order. -/
inductive JsonVal where
  | jnull : JsonVal
  | jbool : Bool → JsonVal
  | jint : Int → JsonVal
  | jfloat : Rat → JsonVal
  | jstr : String → JsonVal
  | jarr : List JsonVal → JsonVal
  | jobj : List (String × JsonVal) → JsonVal

/-- Python dict.get with default on a dict built by json.loads: a
duplicated key keeps the last occurrence. -/
def jget (fs : List (String × JsonVal)) (k : String) (d : JsonVal) : JsonVal :=
  match fs.reverse.find? (fun p => p.1 = k) with
  | some p => p.2
  | none => d

/-- Modelled from the spec: the GenerationMetrics record of
cli/generation/codegen.py, which is not under src/. Per the spec it is a
plain record of the four metric fields; the constructor applies no
validation, so each field holds whatever JSON value was passed. -/
structure GenerationMetrics where
  cost_usd : JsonVal
  input_tokens : JsonVal
  output_tokens : JsonVal
  turns : JsonVal

/-- A raised Python exception, as far as the orchestrator distinguishes
them. -/
inductive PyErr where
  | execError : String → PyErr
  | queryError : String → PyErr
  | attributeError : PyErr
  deriving DecidableEq

/-- Python str(e) on the exceptions above. -/
def pyErrStr : PyErr → String
  | .execError m => m
  | .queryError m => m
  | .attributeError => "AttributeError"

/-- The contents of generation_metrics.json as seen by the reader:
`none` means the file does not exist; `some none` means the file exists
but json.loads raises JSONDecodeError; `some (some v)` means it parses
to the JSON value v. -/
def MetricsFile : Type := Option (Option JsonVal)

/-- Model of _read_metrics_from_app (dagger_run.py lines 19-35): missing file
gives none; a JSONDecodeError (or KeyError) is caught and gives none; on
a parsed JSON object the four fields are read with dict.get defaults
0.0 / 0 / 0 / 0; on any parsed non-object value, Python data.get raises
AttributeError, which is not in the except clause and propagates. -/
def readMetricsFromApp (file : MetricsFile) : Except PyErr (Option GenerationMetrics) :=
  match file with
  | none => .ok none
  | some none => .ok none
  | some (some (.jobj fs)) =>
      .ok (some
        { cost_usd := jget fs "cost_usd" (.jfloat 0)
          input_tokens := jget fs "input_tokens" (.jint 0)
          output_tokens := jget fs "output_tokens" (.jint 0)
          turns := jget fs "turns" (.jint 0) })
  | some (some _) => .error .attributeError

/-- Model of _check_binary_format (dagger_run.py lines 38-66). The probe argument
is the stdout of the file(1) command on the binary, or `none` when the
file command itself is unavailable (FileNotFoundError), in which case the
check is skipped. The function raises RuntimeError only when the
lowercased probe output mentions mach-o or darwin; any other output is at
most a logged warning. -/
def checkBinaryFormat (probe : Option String) : Except String Unit :=
  match probe with
  | none => .ok ()
  | some out =>
      let o := strLower out
      if strContains o "mach-o" || strContains o "darwin" then
        .error "Binary is macOS format, but Dagger runs Linux containers. Please provide a Linux build."
      else
        .ok ()

/-- The state DaggerAppGenerator.__init__ establishes (dagger_run.py
lines 72-89); stream_logs is irrelevant to the claims and omitted. -/
structure Generator where
  output_dir : String
  mcp_binary : Option String
deriving DecidableEq

/-- DaggerAppGenerator.__init__ (dagger_run.py lines 85-89): the binary
format check runs only when an mcp binary is supplied; a RuntimeError
from it propagates out of the constructor. -/
def initGenerator (outputDir : String) (mcpBinary : Option String)
    (probe : String → Option String) : Except String Generator :=
  match mcpBinary with
  | none => .ok { output_dir := outputDir, mcp_binary := none }
  | some b =>
      match checkBinaryFormat (probe b) with
      | .error e => .error e
      | .ok _ => .ok { output_dir := outputDir, mcp_binary := some b }

/-- Outcome of `result.directory(app_output).export(...)` in
_run_generation: either the directory is exported, or a dagger QueryError
with a message is raised. -/
inductive ExportOutcome where
  | exported : ExportOutcome
  | queryError : String → ExportOutcome

/-- The external world one task execution observes: whether reading
stdout and stderr of the synced command raises an ExecError (and with
which text), how the directory export turns out, and what the metrics
file in the exported directory holds. -/
structure RunEnv where
  captureError : Option String
  exportResult : ExportOutcome
  metricsFile : MetricsFile

/-- Host path of the log file of one task. -/
def logPath (outputDir appName : String) : String :=
  outputDir ++ "/logs/" ++ appName ++ ".log"

/-- Host path of the exported app directory of one task. -/
def appDirPath (outputDir appName : String) : String :=
  outputDir ++ "/" ++ appName

/-- DaggerAppGenerator._run_generation (dagger_run.py lines 118-192),
from the point where the command has been synced: the log file is
written in both the plain and the ExecError branch; then the app
directory export is attempted regardless of an ExecError. On export
success an earlier ExecError is only a logged warning and the metrics
file is read (an AttributeError from the reader propagates). On a
QueryError whose text contains "no such file or directory" the function
returns no artifact, unless an ExecError was recorded, which is then
re-raised; any other QueryError is re-raised. -/
def runGeneration (outputDir appName : String) (env : RunEnv) :
    Except PyErr (Option String × String × Option GenerationMetrics) :=
  let logFile := logPath outputDir appName
  match env.exportResult with
  | .exported =>
      match readMetricsFromApp env.metricsFile with
      | .ok m => .ok (some (appDirPath outputDir appName), logFile, m)
      | .error e => .error e
  | .queryError msg =>
      if strContains msg "no such file or directory" then
        match env.captureError with
        | some e => .error (.execError e)
        | none => .ok (none, logFile, none)
      else
        .error (.queryError msg)

/-- The five-tuple generate_bulk collects for each task. -/
structure TaskResult where
  name : String
  app_dir : Option String
  log_file : Option String
  metrics : Option GenerationMetrics
  error : Option String

/-- run_with_sem (dagger_run.py lines 230-245): a successful run of
_run_generation becomes a result with error none; any raised exception
is caught and becomes the error field, with the log path kept only when
the log file exists on the host. -/
def runWithSem (outputDir appName : String)
    (outcome : Except PyErr (Option String × String × Option GenerationMetrics))
    (logExists : Bool) : TaskResult :=
  match outcome with
  | .ok (appDir, logFile, metrics) =>
      { name := appName, app_dir := appDir, log_file := some logFile
        metrics := metrics, error := none }
  | .error e =>
      { name := appName, app_dir := none
        log_file := if logExists then some (logPath outputDir appName) else none
        metrics := none, error := some (pyErrStr e) }

/-- DaggerAppGenerator.generate_bulk (dagger_run.py lines 194-248):
one run_with_sem unit per prompt-dict item, gathered in order by
asyncio.gather. The env function gives each task its observed outcome
(result of _run_generation, or the exception it raised); logExists says
whether the log file of a task exists when its exception is handled. -/
def generateBulk (outputDir : String) (prompts : List (String × String))
    (env : String → String → Except PyErr (Option String × String × Option GenerationMetrics))
    (logExists : String → Bool) : List TaskResult :=
  prompts.map (fun p => runWithSem outputDir p.1 (env p.1 p.2) (logExists p.1))

/-- Abstract state of one batch run (dagger_run.py lines 228-248): how
many task units have not yet entered the semaphore, how many are inside
it running a container execution, how many are finished, and how many
semaphore slots are free. -/
structure SchedState where
  waiting : Nat
  running : Nat
  done : Nat
  avail : Nat
deriving DecidableEq

/-- Initial state of a batch of n tasks under asyncio.Semaphore maxC. -/
def initSched (n maxC : Nat) : SchedState :=
  { waiting := n, running := 0, done := 0, avail := maxC }

/-- One scheduler transition: a waiting unit acquires a free semaphore
slot and starts its container execution, or a running unit finishes
(successfully or by raising, both leave the async-with block) and
releases its slot. -/
inductive SchedStep : SchedState → SchedState → Prop where
  | acquire (w r d a : Nat) :
      SchedStep ⟨w + 1, r, d, a + 1⟩ ⟨w, r + 1, d, a⟩
  | finish (w r d a : Nat) (success : Bool) :
      SchedStep ⟨w, r + 1, d, a⟩ ⟨w, r, d + 1, a + 1⟩

/-- States a batch of n tasks with semaphore size maxC can reach. -/
def SchedReachable (n maxC : Nat) (s : SchedState) : Prop :=
  Relation.ReflTransGen SchedStep (initSched n maxC) s

/-! ### Output Normalizer (container_runner.py)

The output root is modelled as an association list of named entries.
Python directory listing order and set iteration order are unspecified;
both are modelled by the listing order of the entry list. -/

/-- One filesystem entry: a file, or a directory with named children. -/
inductive Entry where
  | file : Entry
  | dir : List (String × Entry) → Entry

/-- The top level of an output root. -/
abbrev FS := List (String × Entry)

/-- Look a name up among named entries (names are unique in a real
directory, so the first match is the entry). -/
def fsLookup (fs : FS) (k : String) : Option Entry :=
  match fs with
  | [] => none
  | p :: rest => if p.1 = k then some p.2 else fsLookup rest k

/-- Remove the entry of a name: shutil.rmtree of that child. -/
def fsErase (fs : FS) (k : String) : FS :=
  fs.filter (fun p => decide (p.1 ≠ k))

/-- Replace or create the entry of a name. -/
def fsSet (fs : FS) (k : String) (e : Entry) : FS :=
  fsErase fs k ++ [(k, e)]

/-- Whether an entry is a directory: Path.is_dir. -/
def entryIsDir : Entry → Bool
  | .file => false
  | .dir _ => true

mutual

/-- Number of descendants of an entry, files and directories alike:
the length of Path.rglob applied to a star pattern. -/
def entryCountAll : Entry → Nat
  | .file => 0
  | .dir es => listCountAll es

/-- Total rglob count of a child list. -/
def listCountAll : List (String × Entry) → Nat
  | [] => 0
  | (_, e) :: rest => 1 + entryCountAll e + listCountAll rest

end

mutual

/-- Number of files recursively below an entry (the quantity the spec
speaks of; the code counts all rglob entries instead). -/
def entryCountFiles : Entry → Nat
  | .file => 1
  | .dir es => listCountFiles es

/-- Total recursive file count of a child list. -/
def listCountFiles : List (String × Entry) → Nat
  | [] => 0
  | (_, e) :: rest => entryCountFiles e + listCountFiles rest

end

mutual

/-- shutil.copytree with dirs_exist_ok into a possibly existing
destination entry: directories merge recursively, everything else is
replaced by the source. -/
def copyEntryInto : Option Entry → Entry → Entry
  | some (.dir dst), .dir src => .dir (copyListInto dst src)
  | _, src => src

/-- Merge each source child into the destination child list. -/
def copyListInto (dst : List (String × Entry)) : List (String × Entry) → List (String × Entry)
  | [] => dst
  | (n, se) :: rest => copyListInto (fsSet dst n (copyEntryInto (fsLookup dst n) se)) rest

end

/-- Directories already present in the workspace image
(container_runner.py line 12). -/
def knownDirs : List String := ["cli", "__pycache__", ".venv"]

/-- Whether the named child exists as a directory with at least one
immediate entry: Path.exists combined with any of Path.iterdir. A plain
file of that name would make Python raise on iterdir; that corner is not
modelled and yields false here. -/
def dirNonemptyAt (root : FS) (d : String) : Bool :=
  match fsLookup root d with
  | some (.dir es) => !es.isEmpty
  | _ => false

/-- Names of the top-level directories of the output root. -/
def currentDirs (root : FS) : List String :=
  (root.filter (fun p => entryIsDir p.2)).map (fun p => p.1)

/-- The set difference of container_runner.py line 33: current top-level
directories minus the pre-existing snapshot, the known infrastructure
names and the expected name. -/
def rawNewDirs (root : FS) (appName : String) (pre : List String) : List String :=
  (currentDirs root).filter
    (fun d => decide (d ∉ pre) && decide (d ∉ knownDirs) && decide (d ≠ appName))

/-- The candidate set after the emptiness filter of line 35: a new
directory survives iff its own iterdir is non-empty. -/
def candidateDirs (root : FS) (appName : String) (pre : List String) : List String :=
  (rawNewDirs root appName pre).filter (fun d => dirNonemptyAt root d)

/-- Whether the path root/d/childName exists. -/
def childExists (root : FS) (d childName : String) : Bool :=
  match fsLookup root d with
  | some (.dir es) => (es.find? (fun p => decide (p.1 = childName))).isSome
  | _ => false

/-- The marker scan of lines 47-50: all candidates are tried for
databricks.yml first, then all for package.json. -/
def markerPick (root : FS) (cands : List String) : Option String :=
  match cands.find? (fun d => childExists root d "databricks.yml") with
  | some d => some d
  | none => cands.find? (fun d => childExists root d "package.json")

/-- rglob count of the named child, as used by the max key of line 53. -/
def dirCount (root : FS) (d : String) : Nat :=
  match fsLookup root d with
  | some e => entryCountAll e
  | none => 0

/-- Python max with a key over best followed by a list: keeps the first
element whose key is strictly greater than every earlier key. -/
def maxByCount (root : FS) (best : String) : List String → String
  | [] => best
  | d :: rest =>
      if dirCount root d > dirCount root best then maxByCount root d rest
      else maxByCount root best rest

/-- Model of _move_to_expected (container_runner.py lines 15-20): copytree the
actual directory onto the expected path with dirs_exist_ok, then rmtree
the actual directory; returns the expected path. -/
def moveToExpected (root : FS) (actual appName : String) : Option String × FS :=
  let actualEntry := (fsLookup root actual).getD (.dir [])
  let merged := copyEntryInto (fsLookup root appName) actualEntry
  (some appName, fsSet (fsErase root actual) appName merged)

/-- Model of _find_new_app_dir (container_runner.py lines 23-54), returning the
resolved top-level name (the expected app name, or none) together with
the output root after any move it performed. -/
def findNewAppDir (root : FS) (appName : String) (pre : List String) : Option String × FS :=
  match candidateDirs root appName pre with
  | [] =>
      if dirNonemptyAt root appName then (some appName, root) else (none, root)
  | [d] => moveToExpected root d appName
  | d :: rest =>
      match markerPick root (d :: rest) with
      | some w => moveToExpected root w appName
      | none => moveToExpected root (maxByCount root d rest) appName

/-! ### Helper lemmas -/

theorem runWithSem_name (outputDir appName : String)
    (oc : Except PyErr (Option String × String × Option GenerationMetrics))
    (le : Bool) : (runWithSem outputDir appName oc le).name = appName := by
  cases oc <;> rfl

theorem schedInvariant (n maxC : Nat) (s : SchedState) (h : SchedReachable n maxC s) :
    s.running + s.avail = maxC ∧ s.waiting + s.running + s.done = n := by
  induction h with
  | refl => simp [initSched]
  | tail _ hstep ih =>
      cases hstep with
      | acquire w r d a => simp_all; omega
      | finish w r d a success => simp_all; omega

theorem jget_not_mem (fs : List (String × JsonVal)) (k : String) (d : JsonVal)
    (h : k ∉ fs.map Prod.fst) : jget fs k d = d := by
  unfold jget
  have hnone : fs.reverse.find? (fun p => decide (p.1 = k)) = none := by
    rw [List.find?_eq_none]
    intro p hp
    simp only [decide_eq_true_eq]
    intro hk
    exact h (List.mem_map.mpr ⟨p, List.mem_reverse.mp hp, hk⟩)
  rw [hnone]

/-! ### Claims about the Batch Scheduler -/

/-- C1: for every batch given as a mapping from N unique task names to
prompts, generate_bulk returns exactly N result tuples, the sequence of
their name fields is exactly the sequence of input task names, and the
result names are as free of duplicates as the inputs, so each result
name matches exactly one input task name, with no duplicates and no
omissions, regardless of which individual tasks succeed or fail. -/
theorem generateBulk_complete (outputDir : String) (prompts : List (String × String))
    (env : String → String → Except PyErr (Option String × String × Option GenerationMetrics))
    (logExists : String → Bool)
    (h : (prompts.map Prod.fst).Nodup) :
    (generateBulk outputDir prompts env logExists).length = prompts.length ∧
    (generateBulk outputDir prompts env logExists).map TaskResult.name = prompts.map Prod.fst ∧
    ((generateBulk outputDir prompts env logExists).map TaskResult.name).Nodup := by
  have hmap : (generateBulk outputDir prompts env logExists).map TaskResult.name
      = prompts.map Prod.fst := by
    unfold generateBulk
    rw [List.map_map]
    apply List.map_congr_left
    intro p _
    exact runWithSem_name outputDir p.1 (env p.1 p.2) (logExists p.1)
  refine ⟨?_, hmap, ?_⟩
  · unfold generateBulk
    exact List.length_map prompts _
  · rw [hmap]; exact h

/-- C1 witness: a concrete batch of two tasks with distinct names, one
succeeding and one raising, yields two results named exactly after the
inputs. -/
theorem generateBulk_complete_witness :
    ([("a", "build X"), ("b", "build Y")].map Prod.fst).Nodup ∧
    ((generateBulk "out" [("a", "build X"), ("b", "build Y")]
        (fun n _ => if n = "a" then .ok (some "out/a", "out/logs/a.log", none)
                    else .error (.execError "boom"))
        (fun _ => true)).length = 2 ∧
     (generateBulk "out" [("a", "build X"), ("b", "build Y")]
        (fun n _ => if n = "a" then .ok (some "out/a", "out/logs/a.log", none)
                    else .error (.execError "boom"))
        (fun _ => true)).map TaskResult.name = ["a", "b"] ∧
     ((generateBulk "out" [("a", "build X"), ("b", "build Y")]
        (fun n _ => if n = "a" then .ok (some "out/a", "out/logs/a.log", none)
                    else .error (.execError "boom"))
        (fun _ => true)).map TaskResult.name).Nodup) := by
  refine ⟨by decide, ?_⟩
  have := generateBulk_complete "out" [("a", "build X"), ("b", "build Y")]
    (fun n _ => if n = "a" then .ok (some "out/a", "out/logs/a.log", none)
                else .error (.execError "boom"))
    (fun _ => true) (by decide)
  simpa using this

/-- C3: the result of task i in a batch is a function of that task alone
(its name, its prompt, its observed outcome and its log state), so no
sibling exception can abort, cancel or change it; and an exception
raised by the Task Runner is converted by run_with_sem into the error
field of the TaskResult rather than escaping. -/
theorem generateBulk_isolates_failures (outputDir : String)
    (prompts : List (String × String))
    (env : String → String → Except PyErr (Option String × String × Option GenerationMetrics))
    (logExists : String → Bool) (i : Nat) :
    (generateBulk outputDir prompts env logExists)[i]?
      = prompts[i]?.map (fun p => runWithSem outputDir p.1 (env p.1 p.2) (logExists p.1)) ∧
    (∀ appName e le, runWithSem outputDir appName (.error e) le =
      { name := appName, app_dir := none
        log_file := if le then some (logPath outputDir appName) else none
        metrics := none, error := some (pyErrStr e) }) := by
  constructor
  · unfold generateBulk
    exact List.getElem?_map _ prompts i
  · intro appName e le
    rfl

/-- C9: in every state a batch run can reach, at most maxConcurrency
task units are inside the semaphore running a container execution; the
transition relation releases the slot on completion whether the unit
finished successfully or by raising. -/
theorem sched_concurrency_bound (n maxC : Nat) (s : SchedState)
    (h : SchedReachable n maxC s) : s.running ≤ maxC := by
  have := schedInvariant n maxC s h
  omega

/-- C9 witness: with three tasks and a semaphore of size two, the state
after one acquisition is reachable and its running count is within the
bound. -/
theorem sched_concurrency_bound_witness :
    (SchedState.mk 2 1 0 1).running ≤ 2 :=
  sched_concurrency_bound 3 2 ⟨2, 1, 0, 1⟩
    (Relation.ReflTransGen.single (SchedStep.acquire 2 0 0 1))

/-! ### Claims about the binary-format check -/

/-- C4 counterexample: the probe reports a Windows PE binary, an OS/ABI
a Linux container cannot execute, yet the constructor succeeds (the
non-ELF case is only a logged warning), contrary to the claim that
construction fails fast for every incompatible format. -/
theorem initGenerator_accepts_windows_pe :
    initGenerator "out" (some "edda_mcp")
      (fun _ => some "PE32+ executable (console) x86-64, for MS Windows") =
      .ok { output_dir := "out", mcp_binary := some "edda_mcp" } := rfl

/-- C4 amended: construction of the orchestrator with a supplied binary
fails fast exactly when the binary-format probe output mentions mach-o
or darwin (case-insensitive); every other probe output passes with at
most a warning, and when the probe tool is unavailable or no binary is
supplied, no check runs. -/
theorem initGenerator_rejects_exactly_macho (outputDir b : String)
    (probe : String → Option String) :
    ((∃ e, initGenerator outputDir (some b) probe = .error e) ↔
      (∃ out, probe b = some out ∧
        (strContains (strLower out) "mach-o" || strContains (strLower out) "darwin") = true)) ∧
    initGenerator outputDir none probe = .ok { output_dir := outputDir, mcp_binary := none } := by
  refine ⟨?_, rfl⟩
  cases hp : probe b with
  | none => simp [initGenerator, checkBinaryFormat, hp]
  | some out =>
      by_cases hc : (strContains (strLower out) "mach-o" || strContains (strLower out) "darwin") = true
      · simp [initGenerator, checkBinaryFormat, hp, hc]
        simpa using hc
      · simp [initGenerator, checkBinaryFormat, hp, hc]
        simpa using hc

/-! ### Claims about the Metrics Reader -/

/-- C8 counterexample: a metrics file whose content is valid JSON but
not an object (here an array) makes the reader raise AttributeError to
its caller, against the claim that every malformed content is logged and
treated as absent. -/
theorem readMetrics_raises_on_nonobject :
    readMetricsFromApp (some (some (.jarr []))) = .error .attributeError := rfl

/-- C8 amended: the reader returns none when the file is absent and when
the content fails JSON parsing (the JSONDecodeError is caught); content
parsing to a JSON object yields a metrics record; but content parsing to
a non-object JSON value raises AttributeError to the caller. -/
theorem readMetrics_classification :
    readMetricsFromApp none = .ok none ∧
    readMetricsFromApp (some none) = .ok none ∧
    (∀ fs : List (String × JsonVal),
      ∃ m, readMetricsFromApp (some (some (.jobj fs))) = .ok (some m)) ∧
    (∀ v : JsonVal, (∀ fs, v ≠ .jobj fs) →
      readMetricsFromApp (some (some v)) = .error .attributeError) := by
  refine ⟨rfl, rfl, fun fs => ⟨_, rfl⟩, fun v hv => ?_⟩
  cases v with
  | jobj fs => exact absurd rfl (hv fs)
  | jnull => rfl
  | jbool b => rfl
  | jint n => rfl
  | jfloat q => rfl
  | jstr s => rfl
  | jarr l => rfl

/-- C8 amended witness: a two-element JSON array as metrics content
raises AttributeError. -/
theorem readMetrics_classification_witness :
    readMetricsFromApp (some (some (.jarr [.jint 1, .jint 2]))) = .error .attributeError :=
  readMetrics_classification.2.2.2 (.jarr [.jint 1, .jint 2])
    (fun _ h => JsonVal.noConfusion h)

/-- C10: when the metrics file parses as a JSON object, whatever subset
of the four fields is present, the reader neither returns none nor
raises, and in the returned record every individually missing field
defaults to its zero: cost_usd to the float 0.0 and the three integer
fields to 0. -/
theorem readMetrics_defaults_missing_fields (fs : List (String × JsonVal)) :
    readMetricsFromApp (some (some (.jobj fs))) ≠ .ok none ∧
    (∀ e, readMetricsFromApp (some (some (.jobj fs))) ≠ .error e) ∧
    (∀ m, readMetricsFromApp (some (some (.jobj fs))) = .ok (some m) →
      ("cost_usd" ∉ fs.map Prod.fst → m.cost_usd = .jfloat 0) ∧
      ("input_tokens" ∉ fs.map Prod.fst → m.input_tokens = .jint 0) ∧
      ("output_tokens" ∉ fs.map Prod.fst → m.output_tokens = .jint 0) ∧
      ("turns" ∉ fs.map Prod.fst → m.turns = .jint 0)) := by
  have hrfl : readMetricsFromApp (some (some (.jobj fs)))
      = .ok (some ⟨jget fs "cost_usd" (.jfloat 0), jget fs "input_tokens" (.jint 0),
                   jget fs "output_tokens" (.jint 0), jget fs "turns" (.jint 0)⟩) := rfl
  refine ⟨by rw [hrfl]; simp, fun e => by rw [hrfl]; simp, fun m hm => ?_⟩
  rw [hrfl] at hm
  have hm2 : m = ⟨jget fs "cost_usd" (.jfloat 0), jget fs "input_tokens" (.jint 0),
                  jget fs "output_tokens" (.jint 0), jget fs "turns" (.jint 0)⟩ :=
    (Option.some.inj (Except.ok.inj hm)).symm
  subst hm2
  exact ⟨fun h => jget_not_mem fs _ _ h, fun h => jget_not_mem fs _ _ h,
         fun h => jget_not_mem fs _ _ h, fun h => jget_not_mem fs _ _ h⟩

/-- C10 witness: an object carrying only cost_usd — a mixed case with
one field present and three missing — evaluates to a record keeping the
supplied cost and defaulting turns to 0, the latter concluded through
the theorem with its hypotheses discharged concretely. -/
theorem readMetrics_defaults_missing_fields_witness :
    (GenerationMetrics.mk (.jfloat 2) (.jint 0) (.jint 0) (.jint 0)).turns = .jint 0 ∧
    readMetricsFromApp (some (some (.jobj [("cost_usd", .jfloat 2)])))
      = .ok (some ⟨.jfloat 2, .jint 0, .jint 0, .jint 0⟩) :=
  ⟨((readMetrics_defaults_missing_fields [("cost_usd", .jfloat 2)]).2.2
      ⟨.jfloat 2, .jint 0, .jint 0, .jint 0⟩ rfl).2.2.2 (by decide), rfl⟩

/-! ### Claims about the Task Runner -/

/-- C2 counterexample: the command signals an execution error and the
expected output directory is exported successfully, but the exported
metrics file holds a JSON array, so the metrics reader raises
AttributeError, run_with_sem catches it, and the result has error set
and no artifact directory — against the claim that in this situation the
result has no error recorded and the artifact directory set. -/
theorem runGeneration_error_despite_export :
    runWithSem "out" "app"
      (runGeneration "out" "app"
        { captureError := some "process exited 1", exportResult := .exported
          metricsFile := some (some (.jarr [])) }) true =
    { name := "app", app_dir := none, log_file := some "out/logs/app.log"
      metrics := none, error := some "AttributeError" } := rfl

/-- C2 amended: when the command signals an execution error, (a) if the
expected output directory is exported successfully and reading its
metrics file does not itself raise, the execution error is downgraded to
a logged warning and the result has error none and the artifact
directory set; (b) if the export fails because the path does not exist
in the container, the execution error is re-raised, so the result has
error set and artifact directory none. -/
theorem artifact_overrides_exit_status (outputDir appName e msg : String)
    (mf : MetricsFile) (m : Option GenerationMetrics)
    (hm : readMetricsFromApp mf = .ok m)
    (hmsg : strContains msg "no such file or directory" = true) :
    runWithSem outputDir appName
        (runGeneration outputDir appName
          { captureError := some e, exportResult := .exported, metricsFile := mf }) true =
      { name := appName, app_dir := some (appDirPath outputDir appName)
        log_file := some (logPath outputDir appName), metrics := m, error := none } ∧
    runGeneration outputDir appName
        { captureError := some e, exportResult := .queryError msg, metricsFile := mf }
      = .error (.execError e) ∧
    runWithSem outputDir appName
        (runGeneration outputDir appName
          { captureError := some e, exportResult := .queryError msg, metricsFile := mf }) true =
      { name := appName, app_dir := none
        log_file := some (logPath outputDir appName), metrics := none, error := some e } := by
  have h2 : runGeneration outputDir appName
      { captureError := some e, exportResult := .queryError msg, metricsFile := mf }
      = .error (.execError e) := by
    unfold runGeneration
    simp [hmsg]
  have h1 : runGeneration outputDir appName
      { captureError := some e, exportResult := .exported, metricsFile := mf }
      = .ok (some (appDirPath outputDir appName), logPath outputDir appName, m) := by
    unfold runGeneration
    simp [hm]
  refine ⟨?_, h2, ?_⟩
  · rw [h1]; rfl
  · rw [h2]; rfl

/-- C2 amended witness: a concrete exec error with a successful export
and an absent metrics file gives a result with error none; the same exec
error with a missing output path gives a result with error set and no
artifact. -/
theorem artifact_overrides_exit_status_witness :
    readMetricsFromApp none = .ok none ∧
    strContains "no such file or directory: /workspace/app" "no such file or directory" = true ∧
    (runWithSem "out" "app"
        (runGeneration "out" "app"
          { captureError := some "boom", exportResult := .exported, metricsFile := none }) true =
      { name := "app", app_dir := some (appDirPath "out" "app")
        log_file := some (logPath "out" "app"), metrics := none, error := none } ∧
    runGeneration "out" "app"
        { captureError := some "boom"
          exportResult := .queryError "no such file or directory: /workspace/app"
          metricsFile := none }
      = .error (.execError "boom") ∧
    runWithSem "out" "app"
        (runGeneration "out" "app"
          { captureError := some "boom"
            exportResult := .queryError "no such file or directory: /workspace/app"
            metricsFile := none }) true =
      { name := "app", app_dir := none
        log_file := some (logPath "out" "app"), metrics := none, error := some "boom" }) :=
  ⟨rfl, by decide,
    artifact_overrides_exit_status "out" "app" "boom"
      "no such file or directory: /workspace/app" none none rfl (by decide)⟩

/-! ### Helper lemmas about the filesystem model -/

theorem fsLookup_fsErase_ne (fs : FS) (k x : String) (h : x ≠ k) :
    fsLookup (fsErase fs k) x = fsLookup fs x := by
  induction fs with
  | nil => rfl
  | cons p rest ih =>
      by_cases hpk : p.1 = k
      · have h1 : fsErase (p :: rest) k = fsErase rest k := by
          simp [fsErase, List.filter_cons, hpk]
        have hpx : p.1 ≠ x := by rw [hpk]; exact Ne.symm h
        rw [h1, ih]
        simp [fsLookup, hpx]
      · have h1 : fsErase (p :: rest) k = p :: fsErase rest k := by
          simp [fsErase, List.filter_cons, hpk]
        rw [h1]
        by_cases hpx : p.1 = x
        · simp [fsLookup, hpx]
        · simp [fsLookup, hpx, ih]

theorem fsLookup_append_single_ne (fs : FS) (k x : String) (e : Entry) (h : x ≠ k) :
    fsLookup (fs ++ [(k, e)]) x = fsLookup fs x := by
  induction fs with
  | nil => simp [fsLookup, Ne.symm h]
  | cons p rest ih => by_cases hpx : p.1 = x <;> simp [fsLookup, hpx, ih]

theorem fsLookup_fsSet_ne (fs : FS) (k x : String) (e : Entry) (h : x ≠ k) :
    fsLookup (fsSet fs k e) x = fsLookup fs x := by
  unfold fsSet
  rw [fsLookup_append_single_ne _ _ _ _ h, fsLookup_fsErase_ne _ _ _ h]

theorem moveToExpected_lookup_other (root : FS) (actual appName x : String)
    (hxa : x ≠ actual) (hxe : x ≠ appName) :
    fsLookup (moveToExpected root actual appName).2 x = fsLookup root x := by
  simp only [moveToExpected]
  rw [fsLookup_fsSet_ne _ _ _ _ hxe, fsLookup_fsErase_ne _ _ _ hxa]

theorem markerPick_mem (root : FS) (cands : List String) (w : String)
    (h : markerPick root cands = some w) : w ∈ cands := by
  unfold markerPick at h
  cases h1 : cands.find? (fun d => childExists root d "databricks.yml") with
  | some d =>
      rw [h1] at h
      cases h
      exact List.mem_of_find?_eq_some h1
  | none =>
      rw [h1] at h
      exact List.mem_of_find?_eq_some h

theorem maxByCount_mem (root : FS) (l : List String) (best : String) :
    maxByCount root best l = best ∨ maxByCount root best l ∈ l := by
  induction l generalizing best with
  | nil => left; rfl
  | cons d rest ih =>
      unfold maxByCount
      by_cases hgt : dirCount root d > dirCount root best
      · rw [if_pos hgt]
        rcases ih d with h | h
        · right; rw [h]; exact List.mem_cons_self d rest
        · right; exact List.mem_cons_of_mem d h
      · rw [if_neg hgt]
        rcases ih best with h | h
        · left; exact h
        · right; exact List.mem_cons_of_mem d h

/-! ### Claims about the Output Normalizer -/

/-- C5 counterexample: the only new top-level directory holds a single
empty subdirectory, so it has zero files recursively, yet its iterdir is
non-empty, so the code keeps it as a candidate, selects it and moves it
onto the expected name — the claim demands it be discarded before any
selection or move. -/
theorem emptyish_dir_selected_not_discarded :
    findNewAppDir [("noise", .dir [("sub", .dir [])])] "app" [] =
      (some "app", [("app", .dir [("sub", .dir [])])]) ∧
    entryCountFiles (.dir [("sub", .dir [])]) = 0 := ⟨rfl, rfl⟩

/-- C5 amended: the noise filter keeps exactly the new directories whose
own immediate listing is non-empty: when every new directory has an
empty iterdir, reconciliation behaves as if none appeared (expected
check only, no move, root returned unchanged); membership in the
candidate set is exactly new-ness plus a non-empty iterdir, so a
directory with entries but zero files recursively stays a candidate. -/
theorem discard_is_iterdir_empty (root : FS) (appName : String) (pre : List String)
    (h : ∀ d ∈ rawNewDirs root appName pre, dirNonemptyAt root d = false) :
    findNewAppDir root appName pre =
      ((if dirNonemptyAt root appName then some appName else none), root) ∧
    (∀ d, d ∈ candidateDirs root appName pre ↔
      (d ∈ rawNewDirs root appName pre ∧ dirNonemptyAt root d = true)) := by
  constructor
  · have hnil : candidateDirs root appName pre = [] := by
      unfold candidateDirs
      rw [List.filter_eq_nil_iff]
      intro d hd
      simp [h d hd]
    unfold findNewAppDir
    rw [hnil]
    by_cases he : dirNonemptyAt root appName <;> simp [he]
  · intro d
    unfold candidateDirs
    simp [List.mem_filter]

/-- C5 amended witness: a root where the only new directory is fully
empty reconciles to the already present expected directory with the root
unchanged. -/
theorem discard_is_iterdir_empty_witness :
    (∀ d ∈ rawNewDirs [("app", Entry.dir [("x.py", Entry.file)]), ("junk", Entry.dir [])]
        "app" [],
      dirNonemptyAt [("app", Entry.dir [("x.py", Entry.file)]), ("junk", Entry.dir [])] d
        = false) ∧
    (findNewAppDir [("app", Entry.dir [("x.py", Entry.file)]), ("junk", Entry.dir [])]
        "app" [] =
      ((if dirNonemptyAt [("app", Entry.dir [("x.py", Entry.file)]), ("junk", Entry.dir [])]
          "app" then some "app" else none),
       [("app", Entry.dir [("x.py", Entry.file)]), ("junk", Entry.dir [])]) ∧
    (∀ d, d ∈ candidateDirs [("app", Entry.dir [("x.py", Entry.file)]), ("junk", Entry.dir [])]
        "app" [] ↔
      (d ∈ rawNewDirs [("app", Entry.dir [("x.py", Entry.file)]), ("junk", Entry.dir [])]
          "app" [] ∧
       dirNonemptyAt [("app", Entry.dir [("x.py", Entry.file)]), ("junk", Entry.dir [])] d
         = true))) :=
  ⟨by decide,
   discard_is_iterdir_empty
     [("app", Entry.dir [("x.py", Entry.file)]), ("junk", Entry.dir [])] "app" [] (by decide)⟩

/-- C7: when the expected directory exists non-empty and the candidate
set (new directories minus snapshot, infrastructure names and the
expected name, then filtered for emptiness) is empty, reconciliation
returns the expected name and the root untouched: no move, copy or
delete happens. -/
theorem reconcile_idempotent (root : FS) (appName : String) (pre : List String)
    (hcand : candidateDirs root appName pre = [])
    (hne : dirNonemptyAt root appName = true) :
    findNewAppDir root appName pre = (some appName, root) := by
  unfold findNewAppDir
  rw [hcand]
  simp [hne]

/-- C7 witness: a root already holding a non-empty expected directory
next to the known cli infrastructure directory reconciles to itself. -/
theorem reconcile_idempotent_witness :
    candidateDirs [("app", Entry.dir [("x.py", Entry.file)]),
        ("cli", Entry.dir [("m.py", Entry.file)])] "app" [] = [] ∧
    dirNonemptyAt [("app", Entry.dir [("x.py", Entry.file)]),
        ("cli", Entry.dir [("m.py", Entry.file)])] "app" = true ∧
    findNewAppDir [("app", Entry.dir [("x.py", Entry.file)]),
        ("cli", Entry.dir [("m.py", Entry.file)])] "app" [] =
      (some "app", [("app", Entry.dir [("x.py", Entry.file)]),
        ("cli", Entry.dir [("m.py", Entry.file)])]) :=
  ⟨rfl, rfl,
   reconcile_idempotent [("app", Entry.dir [("x.py", Entry.file)]),
     ("cli", Entry.dir [("m.py", Entry.file)])] "app" [] rfl rfl⟩

/-- C6 counterexample: two marker-free candidates, appa with one file
and appb with two empty subdirectories. appa has the larger recursive
file count (1 against 0), so the claim selects appa; the code keys on
rglob entry counts (1 against 2) and moves appb onto the expected name,
leaving appa in place. -/
theorem winner_not_largest_file_count :
    findNewAppDir
      [("appa", .dir [("main.py", .file)]),
       ("appb", .dir [("s1", .dir []), ("s2", .dir [])])] "app" [] =
      (some "app", [("appa", .dir [("main.py", .file)]),
                    ("app", .dir [("s1", .dir []), ("s2", .dir [])])]) ∧
    entryCountFiles (.dir [("main.py", .file)]) = 1 ∧
    entryCountFiles (.dir [("s1", .dir []), ("s2", .dir [])]) = 0 := ⟨rfl, rfl, rfl⟩

/-- C6 amended: with several candidates the code scans every candidate
for databricks.yml and then every candidate for package.json, taking the
first hit in iteration order; when no candidate holds a marker it takes
the first candidate maximizing the rglob entry count, which counts files
and directories alike (not the recursive file count), with ties broken
by iteration order rather than lexicographic order; the winner is merged
into the expected name and removed, and every losing candidate is left
untouched. -/
theorem multi_candidate_selection (root : FS) (appName : String) (pre : List String)
    (d r : String) (rest : List String)
    (hc : candidateDirs root appName pre = d :: r :: rest) :
    ∃ w, w ∈ candidateDirs root appName pre ∧
      w = (match markerPick root (d :: r :: rest) with
           | some v => v
           | none => maxByCount root d (r :: rest)) ∧
      findNewAppDir root appName pre = moveToExpected root w appName ∧
      (findNewAppDir root appName pre).1 = some appName ∧
      (∀ x, x ≠ w → x ≠ appName →
        fsLookup (findNewAppDir root appName pre).2 x = fsLookup root x) := by
  have hfind : findNewAppDir root appName pre =
      (match markerPick root (d :: r :: rest) with
       | some v => moveToExpected root v appName
       | none => moveToExpected root (maxByCount root d (r :: rest)) appName) := by
    unfold findNewAppDir
    rw [hc]
  cases hm : markerPick root (d :: r :: rest) with
  | some v =>
      refine ⟨v, ?_, rfl, ?_, ?_, ?_⟩
      · rw [hc]; exact markerPick_mem root _ v hm
      · rw [hfind, hm]
      · rw [hfind, hm]; rfl
      · intro x hxw hxe
        rw [hfind, hm]
        exact moveToExpected_lookup_other root v appName x hxw hxe
  | none =>
      refine ⟨maxByCount root d (r :: rest), ?_, rfl, ?_, ?_, ?_⟩
      · rw [hc]
        rcases maxByCount_mem root (r :: rest) d with h | h
        · rw [h]; exact List.mem_cons_self d (r :: rest)
        · exact List.mem_cons_of_mem d h
      · rw [hfind, hm]
      · rw [hfind, hm]; rfl
      · intro x hxw hxe
        rw [hfind, hm]
        exact moveToExpected_lookup_other root (maxByCount root d (r :: rest)) appName x hxw hxe

/-- C6 amended witness: two candidates where the first carries the
databricks.yml marker; the marker scan picks it, it is moved onto the
expected name, and the losing candidate keeps its content. -/
theorem multi_candidate_selection_witness :
    ∃ w, w ∈ candidateDirs
        [("one", Entry.dir [("databricks.yml", Entry.file)]),
         ("two", Entry.dir [("a.py", Entry.file), ("b.py", Entry.file)])] "app" [] ∧
      w = (match markerPick
              [("one", Entry.dir [("databricks.yml", Entry.file)]),
               ("two", Entry.dir [("a.py", Entry.file), ("b.py", Entry.file)])]
              ("one" :: "two" :: []) with
           | some v => v
           | none => maxByCount
              [("one", Entry.dir [("databricks.yml", Entry.file)]),
               ("two", Entry.dir [("a.py", Entry.file), ("b.py", Entry.file)])]
              "one" ("two" :: [])) ∧
      findNewAppDir
          [("one", Entry.dir [("databricks.yml", Entry.file)]),
           ("two", Entry.dir [("a.py", Entry.file), ("b.py", Entry.file)])] "app" [] =
        moveToExpected
          [("one", Entry.dir [("databricks.yml", Entry.file)]),
           ("two", Entry.dir [("a.py", Entry.file), ("b.py", Entry.file)])] w "app" ∧
      (findNewAppDir
          [("one", Entry.dir [("databricks.yml", Entry.file)]),
           ("two", Entry.dir [("a.py", Entry.file), ("b.py", Entry.file)])] "app" []).1
        = some "app" ∧
      (∀ x, x ≠ w → x ≠ "app" →
        fsLookup (findNewAppDir
            [("one", Entry.dir [("databricks.yml", Entry.file)]),
             ("two", Entry.dir [("a.py", Entry.file), ("b.py", Entry.file)])] "app" []).2 x =
        fsLookup
            [("one", Entry.dir [("databricks.yml", Entry.file)]),
             ("two", Entry.dir [("a.py", Entry.file), ("b.py", Entry.file)])] x) :=
  multi_candidate_selection
    [("one", Entry.dir [("databricks.yml", Entry.file)]),
     ("two", Entry.dir [("a.py", Entry.file), ("b.py", Entry.file)])] "app" []
    "one" "two" [] rfl

end Orchestrator
